import Mathlib

/-!
Verification of the `ramses_rf` entity layer (`src/ramses_rf/devices.py`,
`src/ramses_rf/devices_hvac.py`) against its natural-language specification.

The Python classes are shallowly embedded: object state becomes explicit
record types, raising an exception becomes an `Except`/`Option Err` result,
and the mutating methods become pure state-transforming functions.  Python
object identity (`is`) between registered entities is modelled by equality
of their unique ids, and Python truthiness of strings by the string being
non-empty.
-/

namespace RamsesRF

/-- The exception kinds raised by the embedded code paths
(`CorruptStateError`, `TypeError`, `LookupError`, `AssertionError`,
`RuntimeError`). -/
inductive Err where
  | corruptState
  | typeError
  | lookupError
  | assertionError
  | runtimeError
  deriving DecidableEq, Repr

/-- Packet verbs: I (inform), RQ (request), RP (reply), W (write). -/
inductive Verb where
  | I
  | RQ
  | RP
  | W
  deriving DecidableEq, Repr

/-- Dictionary lookup on an association list (first match wins), used to
model the Python dicts of the source. -/
def dictLookup {k : Type} {a : Type} [DecidableEq k] : List (k × a) → k → Option a
  | [], _ => none
  | (key, v) :: rest, x => if key = x then some v else dictLookup rest x

/-- Python truthiness of an optional string argument: `None` and the empty
string are falsy. -/
def pyTruthy : Option String → Bool
  | none => false
  | some s => s ≠ ""

/-- The binding-state attribute `_1fc9_state` of a `Fakeable` device. -/
structure BindState where
  state1fc9 : String
  deriving DecidableEq, Repr

/-- A message as seen by the binding callbacks: its opcode and source. -/
structure BindMsg where
  code : String
  srcId : String
  dstIsSelf : Bool
  deriving DecidableEq, Repr

/-- An outbound bind packet (`Command.put_bind`): verb, opcode, source id. -/
structure BindCmd where
  verb : Verb
  code : String
  srcId : String
  deriving DecidableEq, Repr

/-- Embeds the inner callback `bind_confirm` of `Fakeable._bind_waiting`
(devices.py lines 572-581): it processes the 3rd/final packet of the
handshake.  The source line `self._1fc9_state == "confirm"` is a comparison
statement, not an assignment, so the state is returned unchanged; the
second component records whether the user callback is invoked. -/
def bind_confirm_waiting (code : String) (st : BindState) (msg : Option BindMsg) :
    BindState × Bool :=
  match msg with
  | none => (st, false)
  | some m =>
    if m.code ≠ code then (st, false)
    else (st, true)

/-- Embeds `Fakeable._bind_waiting` up to the installation of the wildcard
listener (devices.py lines 561-605): the state is set to "waiting". -/
def bind_waiting_start (st : BindState) : BindState :=
  { st with state1fc9 := "waiting" }

/-- The local constant `SUPPORTED_CODES` of `Fakeable._bind_request`
(devices.py line 621): the only opcodes that may be bound. -/
def SUPPORTED_CODES : List String := ["0002", "1260", "1290", "30C9"]

/-- Embeds `Fakeable._bind_request` (devices.py lines 607-642): the
`assert code in SUPPORTED_CODES` precondition runs before the state
assignment `self._1fc9_state = "request"` and before the offer packet
`Command.put_bind(I_, code, self.id, ...)` is sent.  The result is the
raised error (if any), the resulting state, and the packets sent. -/
def bind_request (selfId : String) (st : BindState) (code : String) :
    Option Err × BindState × List BindCmd :=
  if code ∈ SUPPORTED_CODES then
    (none, { st with state1fc9 := "request" }, [⟨Verb.I, code, selfId⟩])
  else
    (some Err.assertionError, st, [])

/-- The three recurring discovery flags. -/
inductive DiscoverKind where
  | SCHEMA
  | PARAMS
  | STATUS
  deriving DecidableEq, Repr

/-- A recurring task registered via `gwy._add_task`: flag, delay (s),
period (s). -/
structure DiscTask where
  kind : DiscoverKind
  delay : Nat
  period : Nat
  deriving DecidableEq, Repr

/-- Embeds `DeviceBase._start_discovery` (devices.py lines 183-195); the
argument is the result of `randint(10, 20)`. -/
def start_discovery (delay : Nat) : List DiscTask :=
  [⟨DiscoverKind.SCHEMA, 0, 3600 * 24⟩,
   ⟨DiscoverKind.PARAMS, delay, 3600 * 6⟩,
   ⟨DiscoverKind.STATUS, delay + 1, 60⟩]

/-- Embeds `OtbGateway._start_discovery` (devices.py lines 1240-1252); note
the PARAMS period of 3600 s, unlike the base class. -/
def otb_start_discovery (delay : Nat) : List DiscTask :=
  [⟨DiscoverKind.SCHEMA, 0, 3600 * 24⟩,
   ⟨DiscoverKind.PARAMS, delay, 3600⟩,
   ⟨DiscoverKind.STATUS, delay + 1, 60⟩]

/-- The tri-state attribute `_iz_controller`: Python `None` (unset),
`False`, or a truthy value (`True` or the promoting message). -/
inductive IzController where
  | unset
  | isFalse
  | isTrue
  deriving DecidableEq, Repr

/-- Python truthiness of `_iz_controller`. -/
def IzController.truthy : IzController → Bool
  | .isTrue => true
  | _ => false

/-- The device classes relevant to the embedded code paths (values of
`_DEV_KLASS`); `isinstance(x, Controller)` holds for `CTL` and its
subclass `PRG`, and `HgiGateway` overrides `_set_ctl`. -/
inductive Klass where
  | DEV
  | CTL
  | PRG
  | UFC
  | HGI
  | OTB
  | THM
  | BDR
  | TRV
  | DHW
  | EXT
  | RFG
  deriving DecidableEq, Repr

/-- The state of a device that the embedded methods read and write.
References to other entities (`_ctl`, `_parent`) are by unique id, which
models Python object identity between registered entities.  `evo` models
`self._evo is not None` (whether a TCS is attached). -/
structure Device where
  id : String
  typ : String
  klass : Klass
  ctl : Option String
  parent : Option String
  domain_id : Option String
  iz_controller : IzController
  evo : Bool
  deriving DecidableEq, Repr

/-- Embeds the property `DeviceBase._is_controller`
(devices.py lines 252-261). -/
def Device.is_controller (d : Device) : Bool :=
  match d.iz_controller with
  | .unset =>
    match d.ctl with
    | some c => c = d.id
    | none => false
  | iz => iz.truthy

/-- Embeds `DeviceBase._set_ctl` (devices.py lines 210-230), with the
`HgiGateway._set_ctl` override (lines 848-850), which only logs, selected
by the klass.  The bookkeeping on the controller (`ctl.device_by_id`,
`ctl.devices`) is not modelled; the result is the updated device. -/
def Device.set_ctl (self ctl : Device) : Except Err Device :=
  if self.klass = Klass.HGI then Except.ok self
  else if self.ctl = some ctl.id then Except.ok self
  else if self.is_controller = true ∧ self.klass ≠ Klass.UFC then Except.ok self
  else if self.ctl ≠ none then Except.error Err.corruptState
  else if ¬(ctl.klass = Klass.CTL ∨ ctl.klass = Klass.PRG) ∧ ctl.is_controller = false then
    Except.error Err.typeError
  else Except.ok { self with ctl := some ctl.id }

/-- A parent entity passed to `Device._set_parent`: a heating `Zone` (with
its idx), the `DhwZone`, or the `System`, together with its unique id and
its controller device. -/
inductive ParentKind where
  | zone (idx : String)
  | dhwZone
  | system
  deriving DecidableEq, Repr

/-- A parent candidate for `Device._set_parent`. -/
structure ParentEnt where
  pid : String
  kind : ParentKind
  ctl : Device
  deriving Repr

/-- The tail of `Device._set_parent` (devices.py lines 402-411): after the
domain has been validated, `self._set_ctl(parent._ctl)` is called and the
parent and domain are stored.  The append to `parent.devices` is
bookkeeping on the parent and is not modelled. -/
def set_parent_finish (self : Device) (parent : ParentEnt) (dom : Option String) :
    Except Err Device :=
  match self.set_ctl parent.ctl with
  | Except.error e => Except.error e
  | Except.ok d => Except.ok { d with parent := some parent.pid, domain_id := dom }

/-- Embeds `Device._set_parent` (devices.py lines 365-411): the write-once
check comes first, then the per-kind domain validation, then the tail. -/
def Device.set_parent (self : Device) (parent : ParentEnt) (domain : Option String) :
    Except Err Device :=
  if self.parent = none ∨ self.parent = some parent.pid then
    match parent.kind with
    | ParentKind.zone idx =>
      if pyTruthy domain = true ∧ domain ≠ some idx then Except.error Err.typeError
      else set_parent_finish self parent (some idx)
    | ParentKind.dhwZone =>
      if domain = some "F9" ∨ domain = some "FA" then set_parent_finish self parent domain
      else Except.error Err.typeError
    | ParentKind.system =>
      if domain = some "FC" then set_parent_finish self parent domain
      else Except.error Err.typeError
  else Except.error Err.corruptState

/-- Whether an `Except` result is a normal return (no exception raised). -/
def exceptOk : Except Err Device → Bool
  | Except.ok _ => true
  | Except.error _ => false

/-- The per-kind domain condition under which `Device._set_parent` does not
raise `TypeError` (read off the validation in devices.py lines 386-397). -/
def domainOK : ParentKind → Option String → Bool
  | ParentKind.zone idx, dom => !pyTruthy dom || decide (dom = some idx)
  | ParentKind.dhwZone, dom => decide (dom = some "F9") || decide (dom = some "FA")
  | ParentKind.system, dom => decide (dom = some "FC")

/-- The null address placeholder `NON_DEV_ADDR` (`--:------`). -/
def NON_DEV_ADDR : String := "--:------"

/-- An inbound message as seen by the device handlers: verb, opcode, the
derived src/dst device ids, and the three raw address slots (`msg._addrs`,
compared by identity in the source and here by id). -/
structure Msg where
  verb : Verb
  code : String
  src : String
  dst : String
  addr0 : String
  addr1 : String
  addr2 : String
  deriving DecidableEq, Repr

/-- Embeds `DeviceBase._make_tcs_controller` (devices.py lines 279-285):
`_iz_controller` becomes truthy, and a TCS is created when the device type
is one of 01/12/22/23/34 and none is attached yet. -/
def make_tcs_controller (self : Device) : Device :=
  let s := { self with iz_controller := IzController.isTrue }
  if s.typ ∈ ["01", "12", "22", "23", "34"] ∧ s.evo = false then
    { s with evo := true }
  else s

/-- Embeds the controller-eavesdrop part of `DeviceBase._handle_msg`
(devices.py lines 232-244).  `ctlOnly` is membership in
`CODE_ONLY_FROM_CTL` (from `protocol/ramses.py`, not among the sources),
kept abstract.  The message-cache update of `super()._handle_msg` does not
touch the fields modelled here.  When `_iz_controller` is already `False`
the source only logs an error (raising is an unimplemented TODO). -/
def handle_msg_base (ctlOnly : String → Bool) (self : Device) (msg : Msg) :
    Except Err Device :=
  if msg.src ≠ self.id then Except.error Err.assertionError
  else if msg.verb ≠ Verb.I then Except.ok self
  else if self.iz_controller.truthy = false ∧ ctlOnly msg.code = true then
    if self.iz_controller = IzController.unset then Except.ok (make_tcs_controller self)
    else Except.ok self
  else Except.ok self

/-- Embeds `Thermostat._handle_msg` (devices.py lines 1637-1675) on top of
the base handler: the two address signatures set or contradict
`_iz_controller`; contradictory observations are only logged. -/
def thermostat_handle_msg (ctlOnly : String → Bool) (self : Device) (msg : Msg) :
    Except Err Device :=
  match handle_msg_base ctlOnly self msg with
  | Except.error e => Except.error e
  | Except.ok s =>
    if msg.verb ≠ Verb.I then Except.ok s
    else if msg.addr0 = s.id ∧ msg.addr1 = NON_DEV_ADDR ∧ msg.addr2 = s.id then
      if s.iz_controller = IzController.unset then
        Except.ok { s with iz_controller := IzController.isFalse }
      else Except.ok s
    else if msg.addr0 = NON_DEV_ADDR ∧ msg.addr1 = NON_DEV_ADDR ∧ msg.addr2 = s.id then
      if s.iz_controller = IzController.unset then Except.ok (make_tcs_controller s)
      else Except.ok s
    else Except.ok s

/-- Modelled from the spec: the controller-only opcode set
`CODE_ONLY_FROM_CTL` lives in `protocol/ramses.py`, which is not among the
sources.  The spec's scenario S1 exhibits `1F09` as a member (an I/1F09
with src == dst == self promotes the device to Controller). -/
def CODE_ONLY_FROM_CTL : List String := ["1F09"]

/-- The gateway registry touched by `DeviceBase.__init__`: `device_by_id`
(id to device id, standing for the device object) and `devices`. -/
structure Gwy where
  device_by_id : List (String × String)
  devices : List String
  deriving DecidableEq, Repr

/-- Embeds the registry part of `DeviceBase.__init__` (devices.py lines
142-168): a duplicate id raises `LookupError` before the registry is
touched; otherwise the device is registered and then, if a controller was
supplied, `_set_ctl` runs (whose failure would propagate after
registration). -/
def device_base_init (gwy : Gwy) (dev : Device) (ctl : Option Device) :
    Option Err × Gwy :=
  if (dictLookup gwy.device_by_id dev.id).isSome then (some Err.lookupError, gwy)
  else
    match ctl with
    | none =>
      (none, ⟨gwy.device_by_id ++ [(dev.id, dev.id)], gwy.devices ++ [dev.id]⟩)
    | some c =>
      match dev.set_ctl c with
      | Except.ok _ =>
        (none, ⟨gwy.device_by_id ++ [(dev.id, dev.id)], gwy.devices ++ [dev.id]⟩)
      | Except.error e =>
        (some e, ⟨gwy.device_by_id ++ [(dev.id, dev.id)], gwy.devices ++ [dev.id]⟩)

/-- The `_supported_msg` dict of `OtbGateway`: msg-id (two upper-hex
characters, as built by `f"{msg.payload[MSG_ID]:02X}"`) to Python
`None`/`True`/`False`, here `none`/`some true`/`some false`. -/
structure OtbState where
  supported : List (String × Option Bool)
  deriving DecidableEq, Repr

/-- Dict lookup in `_supported_msg`: distinguishes an absent key (`none`)
from a key stored with value `None` (`some none`). -/
def lookupSupported (st : OtbState) (m : String) : Option (Option Bool) :=
  dictLookup st.supported m

/-- Dict store into `_supported_msg`. -/
def insertSupported (st : OtbState) (m : String) (v : Option Bool) : OtbState :=
  ⟨(st.supported.filter (fun p => p.1 ≠ m)) ++ [(m, v)]⟩

/-- An upper-hex digit. -/
def hexDigit (n : Nat) : Char :=
  if n < 10 then Char.ofNat (48 + n) else Char.ofNat (55 + n)

/-- The format `f"{n:02X}"` for a byte-sized msg id. -/
def hex2 (n : Nat) : String :=
  String.mk [hexDigit (n / 16 % 16), hexDigit (n % 16)]

/-- A parsed 3220 message as consumed by `OtbGateway._handle_msg`: the
opcode, the payload fields `msg_id` and `msg_type`, and the raw packet
payload hex string. -/
structure OtMsg where
  code : String
  msgId : Nat
  msgType : String
  pktPayload : String
  deriving DecidableEq, Repr

/-- Embeds the 3220 part of `OtbGateway._handle_msg` (devices.py lines
1313-1337): the deprecation-sentinel path (payload tail `121980` or
`47AB`) stores `None` on first sight and flips to `False` on the second,
while any other reply stores whether the msg-type is not one of
Data-Invalid / Unknown-DataId / -reserved-. -/
def otb_handle_msg (st : OtbState) (msg : OtMsg) : OtbState :=
  if msg.code ≠ "3220" then st
  else if msg.pktPayload.drop 4 = "121980" ∨ msg.pktPayload.drop 6 = "47AB" then
    match lookupSupported st (hex2 msg.msgId) with
    | none => insertSupported st (hex2 msg.msgId) none
    | some none => insertSupported st (hex2 msg.msgId) (some false)
    | some (some _) => st
  else
    insertSupported st (hex2 msg.msgId)
      (some (decide (msg.msgType ∉ ["Data-Invalid", "Unknown-DataId", "-reserved-"])))

/-- The discovery flags passed to `OtbGateway._discover`. -/
structure DiscoverFlag where
  schema : Bool
  params : Bool
  status : Bool
  deriving DecidableEq, Repr

/-- Embeds the RQ/3220 emissions of `OtbGateway._discover` (devices.py
lines 1254-1298), returning the msg ids for which
`Command.get_opentherm_data` is sent.  The msg-id constants
`SCHEMA_MSG_IDS`/`PARAMS_MSG_IDS`/`STATUS_MSG_IDS` come from
`protocol/opentherm.py`, which is not among the sources, and are kept
abstract; `cachedFresh m` models `self._opentherm_msg.get(m) and not
self._opentherm_msg[m]._expired`.  The non-3220 commands also sent by
`_discover` (10A0, 3EF0, 2401, 3221, 3223) are outside this function's
scope. -/
def otb_discover_3220 (schemaIds paramsIds statusIds : List String)
    (cachedFresh : String → Bool) (st : OtbState) (flag : DiscoverFlag) :
    List String :=
  (if flag.schema then
    schemaIds.filter
      (fun m => decide (lookupSupported st m ≠ some (some false)) && !cachedFresh m)
   else [])
  ++ (if flag.params then
    paramsIds.filter
      (fun m => decide (lookupSupported st m ≠ some (some false)) && !cachedFresh m)
   else [])
  ++ (if flag.status then
    statusIds.filter
      (fun m => decide (lookupSupported st m ≠ some (some false)))
   else [])

/-- The HVAC slugs keyed by verb/code signature in `devices_hvac.py`. -/
inductive HvacSlug where
  | CO2
  | FAN
  | HUM
  | SWI
  deriving DecidableEq, Repr

/-- The classes `class_dev_hvac` can return. -/
inductive HvacClass where
  | HvacCarbonDioxide
  | HvacVentilator
  | HvacHumidity
  | HvacSwitch
  | DeviceHvac
  deriving DecidableEq, Repr

/-- Embeds `_HVAC_VC_PAIR_BY_CLASS` (devices_hvac.py lines 429-434). -/
def HVAC_VC_PAIR_BY_CLASS : List (HvacSlug × List (Verb × String)) :=
  [(HvacSlug.CO2, [(Verb.I, "1298")]),
   (HvacSlug.FAN, [(Verb.I, "31D9"), (Verb.I, "31DA"), (Verb.RP, "31DA")]),
   (HvacSlug.HUM, [(Verb.I, "12A0")]),
   (HvacSlug.SWI, [(Verb.I, "22F1"), (Verb.I, "22F3")])]

/-- Embeds `_HVAC_KLASS_BY_VC_PAIR` (devices_hvac.py line 435): the table
inverted to key on the verb/code pair. -/
def HVAC_KLASS_BY_VC_PAIR : List ((Verb × String) × HvacSlug) :=
  (HVAC_VC_PAIR_BY_CLASS.map (fun kv => kv.2.map (fun t => (t, kv.1)))).flatten

/-- Embeds `HVAC_CLASS_BY_SLUG` (devices_hvac.py line 427). -/
def HVAC_CLASS_BY_SLUG : HvacSlug → HvacClass
  | HvacSlug.CO2 => HvacClass.HvacCarbonDioxide
  | HvacSlug.FAN => HvacClass.HvacVentilator
  | HvacSlug.HUM => HvacClass.HvacHumidity
  | HvacSlug.SWI => HvacClass.HvacSwitch

/-- Embeds `class_dev_hvac` (devices_hvac.py lines 438-458).  The code set
`CODES_HVAC_ONLY` comes from `protocol/ramses.py`, which is not among the
sources, and is kept abstract. -/
def class_dev_hvac (codesHvacOnly : List String) (_devAddr : String)
    (msg : Option (Verb × String)) (eavesdrop : Bool) : Except Err HvacClass :=
  if eavesdrop = false then Except.error Err.typeError
  else
    match msg with
    | none => Except.error Err.typeError
    | some (v, c) =>
      match dictLookup HVAC_KLASS_BY_VC_PAIR (v, c) with
      | some slug => Except.ok (HVAC_CLASS_BY_SLUG slug)
      | none =>
        if c ∈ codesHvacOnly then Except.ok HvacClass.DeviceHvac
        else Except.error Err.typeError

/-- A concrete evohome controller (device type 01). -/
def ctlA : Device :=
  ⟨"01:111111", "01", Klass.CTL, some "01:111111", none, some "FF",
   IzController.isTrue, true⟩

/-- A second, distinct controller. -/
def ctlB : Device :=
  ⟨"01:222222", "01", Klass.CTL, some "01:222222", none, some "FF",
   IzController.isTrue, true⟩

/-- A TRV whose controller and parent zone are already assigned. -/
def trvA : Device :=
  ⟨"04:123456", "04", Klass.TRV, some "01:111111", some "zone-01-07", some "07",
   IzController.unset, false⟩

/-- A TRV whose controller is assigned but whose parent is not yet set. -/
def trvNew : Device :=
  ⟨"04:654321", "04", Klass.TRV, some "01:111111", none, none,
   IzController.unset, false⟩

/-- A TRV already parented to zone 02 of `ctlA`. -/
def trvBound : Device :=
  ⟨"04:777777", "04", Klass.TRV, some "01:111111", some "zone-01-02", some "02",
   IzController.unset, false⟩

/-- The result of re-parenting `trvNew` to zone 02. -/
def trvNewBound : Device :=
  ⟨"04:654321", "04", Klass.TRV, some "01:111111", some "zone-01-02", some "02",
   IzController.unset, false⟩

/-- Zone 02 of controller `ctlA`. -/
def zone02 : ParentEnt := ⟨"zone-01-02", ParentKind.zone "02", ctlA⟩

/-- The DHW pseudo-zone of controller `ctlA`. -/
def dhwA : ParentEnt := ⟨"dhw-01", ParentKind.dhwZone, ctlA⟩

/-- The heating system of controller `ctlA`. -/
def sysA : ParentEnt := ⟨"sys-01", ParentKind.system, ctlA⟩

/-- A thermostat (type 12) already marked as not-a-controller. -/
def thm12dev : Device :=
  ⟨"12:227486", "12", Klass.THM, none, none, none, IzController.isFalse, false⟩

/-- An I/1F09 announcement with src == dst == the device itself. -/
def msg1F09 : Msg :=
  ⟨Verb.I, "1F09", "12:227486", "12:227486", "12:227486", NON_DEV_ADDR, "12:227486"⟩

/-- A freshly seen, promotable type-01 device. -/
def dev01 : Device :=
  ⟨"01:145039", "01", Klass.DEV, none, none, none, IzController.unset, false⟩

/-- The I/1F09 announcement of scenario S1. -/
def msgCtl01 : Msg :=
  ⟨Verb.I, "1F09", "01:145039", "01:145039", "01:145039", NON_DEV_ADDR, "01:145039"⟩

/-- A thermostat already promoted to controller. -/
def thm34dev : Device :=
  ⟨"34:117711", "34", Klass.THM, none, none, none, IzController.isTrue, true⟩

/-- An I announcement with the non-controller address signature
(addrs self / null / self) from `thm34dev`. -/
def msgSigA : Msg :=
  ⟨Verb.I, "30C9", "34:117711", NON_DEV_ADDR, "34:117711", NON_DEV_ADDR, "34:117711"⟩

/-- A type-22 thermostat marked not-a-controller. -/
def thm22dev : Device :=
  ⟨"22:333444", "22", Klass.THM, none, none, none, IzController.isFalse, false⟩

/-- An I/1F09 announcement with src == dst == `thm22dev`. -/
def msg1F09b : Msg :=
  ⟨Verb.I, "1F09", "22:333444", "22:333444", "22:333444", NON_DEV_ADDR, "22:333444"⟩

/-- An I announcement with the controller address signature
(null / null / self) from `thm12dev`. -/
def msgSigB : Msg :=
  ⟨Verb.I, "1F09", "12:227486", NON_DEV_ADDR, NON_DEV_ADDR, NON_DEV_ADDR, "12:227486"⟩

/-- A gateway registry holding only the HGI80. -/
def gwy18 : Gwy := ⟨[("18:000730", "18:000730")], ["18:000730"]⟩

/-- An OTB whose msg-id 12 has been deprecated and whose 13 is supported. -/
def exOtb : OtbState := ⟨[("12", some false), ("13", some true)]⟩

/-- An RP/3220 Unknown-DataId reply for msg id 0x12. -/
def otMsgInvalid : OtMsg := ⟨"3220", 0x12, "Unknown-DataId", "00C0120000"⟩

/-- An RP/3220 reply for msg id 0x05 matching the 121980 sentinel. -/
def otMsgSentinel : OtMsg := ⟨"3220", 0x05, "Read-Ack", "00C5121980"⟩

lemma dictLookup_append_none {k : Type} {a : Type} [DecidableEq k]
    (l₁ l₂ : List (k × a)) (x : k) (h : dictLookup l₁ x = none) :
    dictLookup (l₁ ++ l₂) x = dictLookup l₂ x := by
  induction l₁ with
  | nil => simp
  | cons hd tl ih =>
    obtain ⟨key, v⟩ := hd
    simp only [List.cons_append, dictLookup] at h ⊢
    by_cases hk : key = x
    · rw [if_pos hk] at h
      exact absurd h (by simp)
    · rw [if_neg hk] at h ⊢
      exact ih h

lemma dictLookup_singleton {k : Type} {a : Type} [DecidableEq k] (x : k) (v : a) :
    dictLookup [(x, v)] x = some v := by
  unfold dictLookup
  rw [if_pos rfl]

lemma dictLookup_filter_ne {a : Type} (l : List (String × a)) (m : String) :
    dictLookup (l.filter (fun p => p.1 ≠ m)) m = none := by
  induction l with
  | nil => simp [dictLookup]
  | cons hd tl ih =>
    obtain ⟨key, v⟩ := hd
    rw [List.filter_cons]
    by_cases hk : key = m
    · rw [if_neg (by simp [hk])]
      exact ih
    · rw [if_pos (by simp [hk])]
      simp only [dictLookup]
      rw [if_neg hk]
      exact ih

lemma lookup_insertSupported (st : OtbState) (m : String) (v : Option Bool) :
    lookupSupported (insertSupported st m v) m = some v := by
  unfold lookupSupported insertSupported
  rw [dictLookup_append_none _ _ _ (dictLookup_filter_ne _ _)]
  exact dictLookup_singleton _ _

lemma set_ctl_of_same (self ctl : Device) (h : self.ctl = some ctl.id) :
    self.set_ctl ctl = Except.ok self := by
  unfold Device.set_ctl
  by_cases hk : self.klass = Klass.HGI
  · rw [if_pos hk]
  · rw [if_neg hk, if_pos h]

lemma set_parent_finish_of_same_ctl (self : Device) (parent : ParentEnt)
    (dom : Option String) (h : self.ctl = some parent.ctl.id) :
    set_parent_finish self parent dom =
      Except.ok { self with parent := some parent.pid, domain_id := dom } := by
  unfold set_parent_finish
  rw [set_ctl_of_same _ _ h]

lemma set_parent_finish_ok_domain (self : Device) (parent : ParentEnt)
    (dom : Option String) (d' : Device)
    (h : set_parent_finish self parent dom = Except.ok d') :
    d'.domain_id = dom := by
  unfold set_parent_finish at h
  cases hc : self.set_ctl parent.ctl with
  | error e => rw [hc] at h; exact absurd h (by simp)
  | ok d =>
    rw [hc] at h
    have := Except.ok.inj h
    rw [← this]

lemma make_tcs_controller_truthy (self : Device) :
    (make_tcs_controller self).iz_controller.truthy = true := by
  unfold make_tcs_controller
  by_cases hc : self.typ ∈ ["01", "12", "22", "23", "34"] ∧ self.evo = false
  · rw [if_pos hc]
    rfl
  · rw [if_neg hc]
    rfl

lemma make_tcs_controller_evo (self : Device)
    (h : self.typ ∈ ["01", "12", "22", "23", "34"]) :
    (make_tcs_controller self).evo = true := by
  unfold make_tcs_controller
  by_cases he : self.evo = false
  · rw [if_pos ⟨h, he⟩]
  · rw [if_neg (fun hc => he hc.2)]
    simpa using he

lemma device_base_init_snd (gwy : Gwy) (dev : Device) (ctl : Option Device)
    (h : dictLookup gwy.device_by_id dev.id = none) :
    (device_base_init gwy dev ctl).2 =
      ⟨gwy.device_by_id ++ [(dev.id, dev.id)], gwy.devices ++ [dev.id]⟩ := by
  unfold device_base_init
  rw [if_neg (by simp [h])]
  cases ctl with
  | none => rfl
  | some c =>
    split
    · rfl
    · split <;> rfl

/-- Claim C3: the spec requires that after the binding-confirmation
callback processes the final packet of the handshake (a non-null message
bearing the expected code), `_1fc9_state` has been assigned "confirm".
The source instead evaluates the comparison `self._1fc9_state ==
"confirm"`, a no-op: at a concrete final packet (code 3EF0 matching the
expected code, arriving in the "waiting" state installed by
`_bind_waiting`) the callback fires the user callback but leaves the state
at "waiting", not "confirm". -/
theorem bind_confirm_comparison_no_assignment :
    (bind_confirm_waiting "3EF0" (bind_waiting_start ⟨"idle"⟩)
        (some ⟨"3EF0", "13:049798", true⟩)).1.state1fc9 = "waiting" ∧
    (bind_confirm_waiting "3EF0" (bind_waiting_start ⟨"idle"⟩)
        (some ⟨"3EF0", "13:049798", true⟩)).2 = true ∧
    ("waiting" : String) ≠ "confirm" := by
  refine ⟨rfl, rfl, ?_⟩
  decide

/-- Claim C5: a bind request for a code outside the supported capability
set (0002, 1260, 1290, 30C9) raises the precondition error with the
binding state unchanged and no packet sent, while a code inside the set
sets the state to "request" and sends the I/1FC9 offer. -/
theorem bind_request_capability_gate (selfId : String) (st : BindState)
    (code : String) :
    (code ∉ SUPPORTED_CODES →
      bind_request selfId st code = (some Err.assertionError, st, [])) ∧
    (code ∈ SUPPORTED_CODES →
      bind_request selfId st code =
        (none, ⟨"request"⟩, [⟨Verb.I, code, selfId⟩])) := by
  constructor
  · intro h
    unfold bind_request
    rw [if_neg h]
  · intro h
    unfold bind_request
    rw [if_pos h]

/-- Witness for C5 at the codes 1F09 (unsupported) and 30C9 (supported). -/
theorem bind_request_capability_gate_witness :
    bind_request "34:021943" ⟨"idle"⟩ "1F09" =
      (some Err.assertionError, ⟨"idle"⟩, []) ∧
    bind_request "34:021943" ⟨"idle"⟩ "30C9" =
      (none, ⟨"request"⟩, [⟨Verb.I, "30C9", "34:021943"⟩]) :=
  ⟨(bind_request_capability_gate "34:021943" ⟨"idle"⟩ "1F09").1 (by decide),
   (bind_request_capability_gate "34:021943" ⟨"idle"⟩ "30C9").2 (by decide)⟩

/-- Counterexample to claim C7 as stated: the claim requires every new
device to schedule its PARAMS discovery task with interval 6 h, but the
OTB gateway's override schedules PARAMS with period 3600 s (1 h). -/
theorem otb_params_period_differs :
    ¬(∀ t ∈ otb_start_discovery 15, t.kind = DiscoverKind.PARAMS →
        t.period = 3600 * 6) := by
  decide

/-- Claim C7 (amended): starting discovery schedules exactly the trio
SCHEMA (24 h, delay 0), PARAMS and STATUS delayed by d and d+1 seconds
with d drawn from 10..20; PARAMS has interval 6 h for a generic device but
1 h for the OTB gateway, and STATUS has interval 60 s. -/
theorem discovery_trio_schedule (d : Nat) (_h1 : 10 ≤ d) (_h2 : d ≤ 20) :
    start_discovery d =
      [⟨DiscoverKind.SCHEMA, 0, 86400⟩, ⟨DiscoverKind.PARAMS, d, 21600⟩,
       ⟨DiscoverKind.STATUS, d + 1, 60⟩] ∧
    otb_start_discovery d =
      [⟨DiscoverKind.SCHEMA, 0, 86400⟩, ⟨DiscoverKind.PARAMS, d, 3600⟩,
       ⟨DiscoverKind.STATUS, d + 1, 60⟩] ∧
    (start_discovery d).length = 3 ∧ (otb_start_discovery d).length = 3 :=
  ⟨rfl, rfl, rfl, rfl⟩

/-- Witness for C7 (amended) at the delay 12. -/
theorem discovery_trio_schedule_witness :
    start_discovery 12 =
      [⟨DiscoverKind.SCHEMA, 0, 86400⟩, ⟨DiscoverKind.PARAMS, 12, 21600⟩,
       ⟨DiscoverKind.STATUS, 13, 60⟩] ∧
    otb_start_discovery 12 =
      [⟨DiscoverKind.SCHEMA, 0, 86400⟩, ⟨DiscoverKind.PARAMS, 12, 3600⟩,
       ⟨DiscoverKind.STATUS, 13, 60⟩] :=
  ⟨(discovery_trio_schedule 12 (by decide) (by decide)).1,
   (discovery_trio_schedule 12 (by decide) (by decide)).2.1⟩

/-- Counterexample to claim C1 as stated: a device that is itself a
controller (here a CTL, whose `_ctl` was set to itself at construction)
does not raise `CorruptStateError` when `_set_ctl` is called with a
different controller — the call returns silently on the
`self._is_controller` branch. -/
theorem set_ctl_on_controller_does_not_raise :
    ctlA.ctl = some "01:111111" ∧ "01:111111" ≠ ctlB.id ∧
    ctlA.set_ctl ctlB = Except.ok ctlA := by
  refine ⟨rfl, by decide, ?_⟩
  rfl

/-- Claim C1 (amended): re-parenting a device whose parent is already set
to a different parent raises `CorruptStateError`; calling `_set_ctl` with
a different controller raises `CorruptStateError` provided the device is
not itself a controller (UFCs excepted) and not the HGI gateway, which
silently ignore the call; re-assigning the identical controller, or the
identical parent with a consistent domain and controller, does not
raise. -/
theorem parent_and_ctl_write_once (self : Device) (parent : ParentEnt)
    (ctl : Device) (domain : Option String) :
    (∀ p, self.parent = some p → p ≠ parent.pid →
      self.set_parent parent domain = Except.error Err.corruptState) ∧
    (∀ c, self.ctl = some c → c ≠ ctl.id → self.klass ≠ Klass.HGI →
      (self.is_controller = false ∨ self.klass = Klass.UFC) →
      self.set_ctl ctl = Except.error Err.corruptState) ∧
    (self.ctl = some ctl.id → self.set_ctl ctl = Except.ok self) ∧
    (self.parent = some parent.pid → self.ctl = some parent.ctl.id →
      domainOK parent.kind domain = true →
      exceptOk (self.set_parent parent domain) = true) := by
  refine ⟨?_, ?_, ?_, ?_⟩
  · intro p hp hne
    unfold Device.set_parent
    rw [if_neg]
    rw [hp]
    rintro (hc | hc)
    · exact Option.noConfusion hc
    · exact hne (Option.some.inj hc)
  · intro c hc hne hk hctl
    unfold Device.set_ctl
    rw [if_neg hk]
    rw [if_neg (by rw [hc]; intro hx; exact hne (Option.some.inj hx))]
    rw [if_neg (by rintro ⟨h1, h2⟩; rcases hctl with h3 | h3
                   · rw [h3] at h1; cases h1
                   · exact h2 h3)]
    rw [if_pos (by rw [hc]; exact fun hx => Option.noConfusion hx)]
  · intro h
    exact set_ctl_of_same _ _ h
  · intro hp hctl hdom
    unfold Device.set_parent
    rw [if_pos (Or.inr hp)]
    cases hk : parent.kind with
    | zone idx =>
      have hdom2 : (!pyTruthy domain || decide (domain = some idx)) = true := by
        rw [hk] at hdom
        exact hdom
      show exceptOk (if pyTruthy domain = true ∧ domain ≠ some idx
        then Except.error Err.typeError
        else set_parent_finish self parent (some idx)) = true
      rw [if_neg]
      · rw [set_parent_finish_of_same_ctl _ _ _ hctl]
        rfl
      · rintro ⟨h1, h2⟩
        rcases (Bool.or_eq_true _ _).mp hdom2 with h3 | h3
        · rw [h1] at h3
          simp at h3
        · exact h2 (of_decide_eq_true h3)
    | dhwZone =>
      have hdom2 : (decide (domain = some "F9") || decide (domain = some "FA")) = true := by
        rw [hk] at hdom
        exact hdom
      show exceptOk (if domain = some "F9" ∨ domain = some "FA"
        then set_parent_finish self parent domain
        else Except.error Err.typeError) = true
      rw [if_pos]
      · rw [set_parent_finish_of_same_ctl _ _ _ hctl]
        rfl
      · rcases (Bool.or_eq_true _ _).mp hdom2 with h3 | h3
        · exact Or.inl (of_decide_eq_true h3)
        · exact Or.inr (of_decide_eq_true h3)
    | system =>
      have hdom2 : decide (domain = some "FC") = true := by
        rw [hk] at hdom
        exact hdom
      show exceptOk (if domain = some "FC" then set_parent_finish self parent domain
        else Except.error Err.typeError) = true
      rw [if_pos (of_decide_eq_true hdom2)]
      rw [set_parent_finish_of_same_ctl _ _ _ hctl]
      rfl

/-- Witness for C1 (amended): a parented TRV raising on re-parenting, a
controlled TRV raising on a new controller, the identical controller
accepted silently, and the identical parent accepted without error. -/
theorem parent_and_ctl_write_once_witness :
    trvA.set_parent zone02 none = Except.error Err.corruptState ∧
    trvA.set_ctl ctlB = Except.error Err.corruptState ∧
    trvA.set_ctl ctlA = Except.ok trvA ∧
    exceptOk (trvBound.set_parent zone02 (some "02")) = true :=
  ⟨(parent_and_ctl_write_once trvA zone02 ctlB none).1 "zone-01-07" rfl
      (by decide),
   (parent_and_ctl_write_once trvA zone02 ctlB none).2.1 "01:111111" rfl
      (by decide) (by decide) (Or.inl (by decide)),
   (parent_and_ctl_write_once trvA zone02 ctlA none).2.2.1 rfl,
   (parent_and_ctl_write_once trvBound zone02 ctlA (some "02")).2.2.2 rfl rfl
      (by decide)⟩

/-- Counterexample to claim C8 as stated: a call of `_set_parent` with a
DhwZone parent and a supplied domain outside F9/FA does not raise
`TypeError` when the device's parent is already set to a different parent
— the write-once check fires first and raises `CorruptStateError`. -/
theorem set_parent_preassigned_raises_corrupt_not_type :
    trvA.parent = some "zone-01-07" ∧ dhwA.kind = ParentKind.dhwZone ∧
    trvA.set_parent dhwA (some "00") = Except.error Err.corruptState ∧
    Err.corruptState ≠ Err.typeError := by
  refine ⟨rfl, rfl, ?_, by decide⟩
  rfl

/-- Claim C8 (amended): for every call of `_set_parent` on a device whose
parent is unset or is the given parent, a DhwZone parent with a supplied
domain outside F9/FA raises `TypeError`, a System parent with a domain
other than FC raises `TypeError`, a Zone parent with a supplied non-empty
domain differing from the zone's idx raises `TypeError`, and on success
the device's `_domain_id` is the parent zone's idx, F9, FA or FC. -/
theorem set_parent_domain_validation (self : Device) (parent : ParentEnt)
    (domain : Option String)
    (hw : self.parent = none ∨ self.parent = some parent.pid) :
    (parent.kind = ParentKind.dhwZone → ∀ d, domain = some d → d ≠ "F9" →
      d ≠ "FA" → self.set_parent parent domain = Except.error Err.typeError) ∧
    (parent.kind = ParentKind.system → domain ≠ some "FC" →
      self.set_parent parent domain = Except.error Err.typeError) ∧
    (∀ idx, parent.kind = ParentKind.zone idx → ∀ d, domain = some d →
      d ≠ "" → d ≠ idx →
      self.set_parent parent domain = Except.error Err.typeError) ∧
    (∀ d', self.set_parent parent domain = Except.ok d' →
      match parent.kind with
      | ParentKind.zone idx => d'.domain_id = some idx
      | ParentKind.dhwZone =>
        d'.domain_id = some "F9" ∨ d'.domain_id = some "FA"
      | ParentKind.system => d'.domain_id = some "FC") := by
  refine ⟨?_, ?_, ?_, ?_⟩
  · intro hk d hd h9 hA
    unfold Device.set_parent
    rw [if_pos hw, hk]
    rw [if_neg]
    rintro (hc | hc)
    · rw [hd] at hc
      exact h9 (Option.some.inj hc)
    · rw [hd] at hc
      exact hA (Option.some.inj hc)
  · intro hk hne
    unfold Device.set_parent
    rw [if_pos hw, hk]
    rw [if_neg hne]
  · intro idx hk d hd hne hnidx
    unfold Device.set_parent
    rw [if_pos hw, hk]
    show (if pyTruthy domain = true ∧ domain ≠ some idx
      then Except.error Err.typeError
      else set_parent_finish self parent (some idx)) = Except.error Err.typeError
    rw [if_pos]
    constructor
    · rw [hd]
      unfold pyTruthy
      simpa using hne
    · rw [hd]
      intro hc
      exact hnidx (Option.some.inj hc)
  · intro d' hok
    revert hok
    unfold Device.set_parent
    rw [if_pos hw]
    cases hk : parent.kind with
    | zone idx =>
      show ((if pyTruthy domain = true ∧ domain ≠ some idx
        then Except.error Err.typeError
        else set_parent_finish self parent (some idx)) = Except.ok d') →
        d'.domain_id = some idx
      intro hok
      by_cases hc : pyTruthy domain = true ∧ domain ≠ some idx
      · rw [if_pos hc] at hok
        exact absurd hok (by simp)
      · rw [if_neg hc] at hok
        exact set_parent_finish_ok_domain _ _ _ _ hok
    | dhwZone =>
      show ((if domain = some "F9" ∨ domain = some "FA"
        then set_parent_finish self parent domain
        else Except.error Err.typeError) = Except.ok d') →
        (d'.domain_id = some "F9" ∨ d'.domain_id = some "FA")
      intro hok
      by_cases hc : domain = some "F9" ∨ domain = some "FA"
      · rw [if_pos hc] at hok
        have hdid := set_parent_finish_ok_domain _ _ _ _ hok
        rw [hdid]
        exact hc
      · rw [if_neg hc] at hok
        exact absurd hok (by simp)
    | system =>
      show ((if domain = some "FC" then set_parent_finish self parent domain
        else Except.error Err.typeError) = Except.ok d') →
        d'.domain_id = some "FC"
      intro hok
      by_cases hc : domain = some "FC"
      · rw [if_pos hc] at hok
        have hdid := set_parent_finish_ok_domain _ _ _ _ hok
        rw [hdid, hc]
      · rw [if_neg hc] at hok
        exact absurd hok (by simp)

/-- Witness for C8 (amended) on a TRV with no parent yet: the three
TypeError paths at concrete bad domains, and the success path landing in
zone 02 with domain 02. -/
theorem set_parent_domain_validation_witness :
    trvNew.set_parent dhwA (some "00") = Except.error Err.typeError ∧
    trvNew.set_parent sysA none = Except.error Err.typeError ∧
    trvNew.set_parent zone02 (some "05") = Except.error Err.typeError ∧
    trvNewBound.domain_id = some "02" :=
  ⟨(set_parent_domain_validation trvNew dhwA (some "00") (Or.inl rfl)).1
      rfl "00" rfl (by decide) (by decide),
   (set_parent_domain_validation trvNew sysA none (Or.inl rfl)).2.1
      rfl (by decide),
   (set_parent_domain_validation trvNew zone02 (some "05") (Or.inl rfl)).2.2.1
      "02" rfl "05" rfl (by decide) (by decide),
   (set_parent_domain_validation trvNew zone02 (some "02") (Or.inl rfl)).2.2.2
      trvNewBound rfl⟩

/-- Counterexample to claim C2 as stated: a device whose `_iz_controller`
is already `False` is not promoted when it emits an I-verb message with a
controller-only opcode and src == dst == self — the handler only logs an
error and leaves the device unchanged. -/
theorem promotion_blocked_when_marked_false :
    msg1F09.verb = Verb.I ∧ msg1F09.src = thm12dev.id ∧
    msg1F09.dst = thm12dev.id ∧
    CODE_ONLY_FROM_CTL.contains msg1F09.code = true ∧
    handle_msg_base (fun c => CODE_ONLY_FROM_CTL.contains c) thm12dev msg1F09 =
      Except.ok thm12dev ∧
    thm12dev.iz_controller.truthy = false := by
  refine ⟨rfl, rfl, rfl, rfl, ?_, rfl⟩
  rfl

/-- Claim C2 (amended): an I-verb message with a controller-only opcode
from a device whose `_iz_controller` is unset promotes the device (its
`_iz_controller` becomes truthy) and, when the device type is one of
01/12/22/23/34, attaches a TCS; a device already marked not-a-controller
is left unchanged (only an error is logged). -/
theorem eavesdrop_promotion_when_unset (ctlOnly : String → Bool)
    (self : Device) (msg : Msg) (hsrc : msg.src = self.id)
    (hverb : msg.verb = Verb.I) (hcode : ctlOnly msg.code = true) :
    (self.iz_controller = IzController.unset →
      handle_msg_base ctlOnly self msg = Except.ok (make_tcs_controller self) ∧
      (make_tcs_controller self).iz_controller.truthy = true ∧
      (self.typ ∈ ["01", "12", "22", "23", "34"] →
        (make_tcs_controller self).evo = true)) ∧
    (self.iz_controller = IzController.isFalse →
      handle_msg_base ctlOnly self msg = Except.ok self) := by
  constructor
  · intro hiz
    refine ⟨?_, make_tcs_controller_truthy self, make_tcs_controller_evo self⟩
    unfold handle_msg_base
    rw [if_neg (fun h => h hsrc)]
    rw [if_neg (fun h => h hverb)]
    rw [if_pos ⟨by rw [hiz]; rfl, hcode⟩]
    rw [if_pos hiz]
  · intro hiz
    unfold handle_msg_base
    rw [if_neg (fun h => h hsrc)]
    rw [if_neg (fun h => h hverb)]
    rw [if_pos ⟨by rw [hiz]; rfl, hcode⟩]
    rw [if_neg (by rw [hiz]; intro hc; cases hc)]

/-- Witness for C2 (amended): the scenario S1 device 01:145039, freshly
seen, is promoted by its own I/1F09 announcement and acquires a TCS; the
thermostat 12:227486 already marked not-a-controller stays unchanged. -/
theorem eavesdrop_promotion_when_unset_witness :
    handle_msg_base (fun c => CODE_ONLY_FROM_CTL.contains c) dev01 msgCtl01 =
      Except.ok (make_tcs_controller dev01) ∧
    (make_tcs_controller dev01).iz_controller.truthy = true ∧
    (make_tcs_controller dev01).evo = true ∧
    handle_msg_base (fun c => CODE_ONLY_FROM_CTL.contains c) thm12dev msg1F09 =
      Except.ok thm12dev :=
  ⟨((eavesdrop_promotion_when_unset (fun c => CODE_ONLY_FROM_CTL.contains c) dev01 msgCtl01 rfl rfl rfl).1 rfl).1,
   ((eavesdrop_promotion_when_unset (fun c => CODE_ONLY_FROM_CTL.contains c) dev01 msgCtl01 rfl rfl rfl).1 rfl).2.1,
   ((eavesdrop_promotion_when_unset (fun c => CODE_ONLY_FROM_CTL.contains c) dev01 msgCtl01 rfl rfl rfl).1 rfl).2.2
      (by decide),
   (eavesdrop_promotion_when_unset (fun c => CODE_ONLY_FROM_CTL.contains c) thm12dev msg1F09 rfl rfl rfl).2 rfl⟩

/-- Counterexample to claim C6 as stated: a thermostat known to be a
controller that later exhibits the non-controller address signature
(self / null / self) is handled without raising any error — the handler
returns normally and the state is unchanged, no `CorruptStateError`. -/
theorem contradictory_signature_no_corrupt_state :
    thm34dev.iz_controller.truthy = true ∧
    msgSigA.addr0 = thm34dev.id ∧ msgSigA.addr1 = NON_DEV_ADDR ∧
    msgSigA.addr2 = thm34dev.id ∧
    thermostat_handle_msg (fun c => CODE_ONLY_FROM_CTL.contains c) thm34dev
      msgSigA = Except.ok thm34dev := by
  refine ⟨rfl, rfl, rfl, rfl, ?_⟩
  rfl

/-- Claim C6 (amended): contradictory controller-vs-not observations do
not raise; the handlers return normally with `_iz_controller` unchanged
and only log an error (raising `CorruptStateError` is an unimplemented
TODO in the source): a device marked not-a-controller seeing a
controller-only I-verb opcode, a thermostat marked controller seeing the
non-controller address signature, and a thermostat marked not-a-controller
seeing the controller address signature. -/
theorem contradictory_signature_only_logged (ctlOnly : String → Bool)
    (self : Device) (msg : Msg) (hsrc : msg.src = self.id)
    (hverb : msg.verb = Verb.I) :
    (self.iz_controller = IzController.isFalse → ctlOnly msg.code = true →
      handle_msg_base ctlOnly self msg = Except.ok self) ∧
    (self.iz_controller.truthy = true → msg.addr0 = self.id →
      msg.addr1 = NON_DEV_ADDR → msg.addr2 = self.id →
      thermostat_handle_msg ctlOnly self msg = Except.ok self) ∧
    (self.id ≠ NON_DEV_ADDR → self.iz_controller = IzController.isFalse →
      msg.addr0 = NON_DEV_ADDR → msg.addr1 = NON_DEV_ADDR →
      msg.addr2 = self.id →
      thermostat_handle_msg ctlOnly self msg = Except.ok self) := by
  refine ⟨?_, ?_, ?_⟩
  · intro hiz hcode
    unfold handle_msg_base
    rw [if_neg (fun hx => hx hsrc)]
    rw [if_neg (fun hx => hx hverb)]
    rw [if_pos ⟨by rw [hiz]; rfl, hcode⟩]
    rw [if_neg (by rw [hiz]; intro hc; cases hc)]
  · intro htr h0 h1 h2
    have hb : handle_msg_base ctlOnly self msg = Except.ok self := by
      unfold handle_msg_base
      rw [if_neg (fun hx => hx hsrc)]
      rw [if_neg (fun hx => hx hverb)]
      rw [if_neg (by rintro ⟨hf, _⟩; rw [htr] at hf; cases hf)]
    unfold thermostat_handle_msg
    rw [hb]
    show (if msg.verb ≠ Verb.I then Except.ok self
      else if msg.addr0 = self.id ∧ msg.addr1 = NON_DEV_ADDR ∧
          msg.addr2 = self.id then
        if self.iz_controller = IzController.unset then
          Except.ok { self with iz_controller := IzController.isFalse }
        else Except.ok self
      else if msg.addr0 = NON_DEV_ADDR ∧ msg.addr1 = NON_DEV_ADDR ∧
          msg.addr2 = self.id then
        if self.iz_controller = IzController.unset then
          Except.ok (make_tcs_controller self)
        else Except.ok self
      else Except.ok self) = Except.ok self
    rw [if_neg (fun hx => hx hverb)]
    rw [if_pos ⟨h0, h1, h2⟩]
    rw [if_neg (by intro hu; rw [hu] at htr; cases htr)]
  · intro hid hiz h0 h1 h2
    have hb : handle_msg_base ctlOnly self msg = Except.ok self := by
      unfold handle_msg_base
      rw [if_neg (fun hx => hx hsrc)]
      rw [if_neg (fun hx => hx hverb)]
      by_cases hc : ctlOnly msg.code = true
      · rw [if_pos ⟨by rw [hiz]; rfl, hc⟩]
        rw [if_neg (by rw [hiz]; intro hx; cases hx)]
      · rw [if_neg (fun hx => hc hx.2)]
    unfold thermostat_handle_msg
    rw [hb]
    show (if msg.verb ≠ Verb.I then Except.ok self
      else if msg.addr0 = self.id ∧ msg.addr1 = NON_DEV_ADDR ∧
          msg.addr2 = self.id then
        if self.iz_controller = IzController.unset then
          Except.ok { self with iz_controller := IzController.isFalse }
        else Except.ok self
      else if msg.addr0 = NON_DEV_ADDR ∧ msg.addr1 = NON_DEV_ADDR ∧
          msg.addr2 = self.id then
        if self.iz_controller = IzController.unset then
          Except.ok (make_tcs_controller self)
        else Except.ok self
      else Except.ok self) = Except.ok self
    rw [if_neg (fun hx => hx hverb)]
    rw [if_neg (by rintro ⟨ha, _⟩; rw [h0] at ha; exact hid ha.symm)]
    rw [if_pos ⟨h0, h1, h2⟩]
    rw [if_neg (by rw [hiz]; intro hx; cases hx)]

/-- Witness for C6 (amended): a type-22 thermostat marked not-a-controller
handling a controller-only I/1F09, and a type-12 thermostat marked
not-a-controller handling a controller-signature announcement; both return
normally with the device unchanged. -/
theorem contradictory_signature_only_logged_witness :
    handle_msg_base (fun c => CODE_ONLY_FROM_CTL.contains c) thm22dev
      msg1F09b = Except.ok thm22dev ∧
    thermostat_handle_msg (fun c => CODE_ONLY_FROM_CTL.contains c) thm12dev
      msgSigB = Except.ok thm12dev :=
  ⟨(contradictory_signature_only_logged (fun c => CODE_ONLY_FROM_CTL.contains c) thm22dev msg1F09b rfl rfl).1 rfl rfl,
   (contradictory_signature_only_logged (fun c => CODE_ONLY_FROM_CTL.contains c) thm12dev msgSigB rfl rfl).2.2
      (by decide) rfl rfl rfl rfl⟩

/-- Claim C4: once an OpenTherm msg id's supported flag is `False`, no
discovery cycle issues an RQ/3220 for it; moreover the flag becomes
`False` after a Data-Invalid/Unknown-DataId reply, and after a second
reply matching a deprecation sentinel (the first stores `None`). -/
theorem otb_deprecation_stops_discovery (schemaIds paramsIds statusIds :
    List String) (cachedFresh : String → Bool) (st : OtbState)
    (flag : DiscoverFlag) (m : String)
    (h : lookupSupported st m = some (some false)) :
    m ∉ otb_discover_3220 schemaIds paramsIds statusIds cachedFresh st flag ∧
    (∀ (st₀ : OtbState) (msg : OtMsg), msg.code = "3220" →
      hex2 msg.msgId = m → msg.pktPayload.drop 4 ≠ "121980" →
      msg.pktPayload.drop 6 ≠ "47AB" →
      (msg.msgType = "Data-Invalid" ∨ msg.msgType = "Unknown-DataId") →
      lookupSupported (otb_handle_msg st₀ msg) m = some (some false)) ∧
    (∀ (st₀ : OtbState) (msg : OtMsg), msg.code = "3220" →
      hex2 msg.msgId = m →
      (msg.pktPayload.drop 4 = "121980" ∨ msg.pktPayload.drop 6 = "47AB") →
      lookupSupported st₀ m = some none →
      lookupSupported (otb_handle_msg st₀ msg) m = some (some false)) := by
  refine ⟨?_, ?_, ?_⟩
  · intro hmem
    unfold otb_discover_3220 at hmem
    have key : ∀ (l : List String) (q : String → Bool),
        m ∈ l.filter
          (fun x => decide (lookupSupported st x ≠ some (some false)) &&
            q x) → False := by
      intro l q hm
      have h2 := (List.mem_filter.mp hm).2
      rw [h] at h2
      simp at h2
    have key2 : ∀ l : List String,
        m ∈ l.filter
          (fun x => decide (lookupSupported st x ≠ some (some false))) →
          False := by
      intro l hm
      have h2 := (List.mem_filter.mp hm).2
      rw [h] at h2
      simp at h2
    rcases List.mem_append.mp hmem with h1 | h3
    · rcases List.mem_append.mp h1 with h11 | h12
      · by_cases hs : flag.schema = true
        · rw [if_pos hs] at h11
          exact key _ _ h11
        · rw [if_neg hs] at h11
          simp at h11
      · by_cases hp : flag.params = true
        · rw [if_pos hp] at h12
          exact key _ _ h12
        · rw [if_neg hp] at h12
          simp at h12
    · by_cases hq : flag.status = true
      · rw [if_pos hq] at h3
        exact key2 _ h3
      · rw [if_neg hq] at h3
        simp at h3
  · intro st₀ msg hc hm h4 h6 ht
    unfold otb_handle_msg
    rw [if_neg (by simp [hc])]
    rw [if_neg (by rintro (hx | hx); exact h4 hx; exact h6 hx)]
    rw [hm, lookup_insertSupported]
    rcases ht with hti | hti <;> rw [hti] <;> rfl
  · intro st₀ msg hc hm hsent hlk
    unfold otb_handle_msg
    rw [if_neg (by simp [hc])]
    rw [if_pos hsent, hm, hlk, lookup_insertSupported]

/-- Witness for C4: in a state where msg id 12 is deprecated, a full
discovery cycle over id lists containing 12 never queries it; an
Unknown-DataId reply for id 0x12 marks it unsupported, and a second
121980-sentinel reply for id 0x05 (first seen as `None`) does too. -/
theorem otb_deprecation_stops_discovery_witness :
    "12" ∉ otb_discover_3220 ["00", "12"] ["12", "13"] ["11", "12"]
      (fun _ => false) exOtb ⟨true, true, true⟩ ∧
    lookupSupported (otb_handle_msg ⟨[]⟩ otMsgInvalid) "12" =
      some (some false) ∧
    lookupSupported (otb_handle_msg ⟨[("05", none)]⟩ otMsgSentinel) "05" =
      some (some false) :=
  ⟨(otb_deprecation_stops_discovery ["00", "12"] ["12", "13"] ["11", "12"]
      (fun _ => false) exOtb ⟨true, true, true⟩ "12" rfl).1,
   (otb_deprecation_stops_discovery ["00", "12"] ["12", "13"] ["11", "12"]
      (fun _ => false) exOtb ⟨true, true, true⟩ "12" rfl).2.1 ⟨[]⟩
      otMsgInvalid rfl rfl (by decide) (by decide) (Or.inr rfl),
   (otb_deprecation_stops_discovery [] [] [] (fun _ => false)
      ⟨[("05", some false)]⟩ ⟨false, false, false⟩ "05"
      rfl).2.2 ⟨[("05", none)]⟩ otMsgSentinel rfl rfl
      (Or.inl rfl) rfl⟩

/-- Claim C9: constructing a device with a duplicate id raises
`LookupError` with the registry untouched; a fresh id is mapped in
`device_by_id` and appended to `devices`. -/
theorem device_init_registry (gwy : Gwy) (dev : Device)
    (ctl : Option Device) :
    ((dictLookup gwy.device_by_id dev.id).isSome = true →
      device_base_init gwy dev ctl = (some Err.lookupError, gwy)) ∧
    (dictLookup gwy.device_by_id dev.id = none →
      (device_base_init gwy dev none).1 = none ∧
      dictLookup ((device_base_init gwy dev ctl).2).device_by_id dev.id =
        some dev.id ∧
      ((device_base_init gwy dev ctl).2).devices =
        gwy.devices ++ [dev.id]) := by
  constructor
  · intro h
    unfold device_base_init
    rw [if_pos h]
  · intro h
    refine ⟨?_, ?_, ?_⟩
    · unfold device_base_init
      rw [if_neg (by simp [h])]
    · rw [device_base_init_snd gwy dev ctl h]
      rw [dictLookup_append_none _ _ _ h]
      exact dictLookup_singleton _ _
    · rw [device_base_init_snd gwy dev ctl h]

/-- Witness for C9: adding 01:145039 to a registry holding only the HGI80
succeeds and registers it; adding it again raises `LookupError` and leaves
the registry unchanged. -/
theorem device_init_registry_witness :
    (device_base_init gwy18 dev01 none).1 = none ∧
    dictLookup ((device_base_init gwy18 dev01 none).2).device_by_id
      "01:145039" = some "01:145039" ∧
    ((device_base_init gwy18 dev01 none).2).devices =
      ["18:000730", "01:145039"] ∧
    device_base_init ((device_base_init gwy18 dev01 none).2) dev01 none =
      (some Err.lookupError, (device_base_init gwy18 dev01 none).2) :=
  ⟨((device_init_registry gwy18 dev01 none).2 rfl).1,
   ((device_init_registry gwy18 dev01 none).2 rfl).2.1,
   ((device_init_registry gwy18 dev01 none).2 rfl).2.2,
   (device_init_registry ((device_base_init gwy18 dev01 none).2) dev01
      none).1 (by decide)⟩

/-- Claim C10: `class_dev_hvac` raises `TypeError` when eavesdropping is
off or no message is given; otherwise a verb/code pair in the HVAC
signature table yields its device class, a code in the HVAC-only set
yields the `DeviceHvac` base class, and anything else raises
`TypeError`. -/
theorem class_dev_hvac_cases (codes : List String) (addr : String)
    (msg : Option (Verb × String)) (eav : Bool) :
    (eav = false →
      class_dev_hvac codes addr msg eav = Except.error Err.typeError) ∧
    (msg = none →
      class_dev_hvac codes addr msg eav = Except.error Err.typeError) ∧
    (∀ v c slug, msg = some (v, c) → eav = true →
      dictLookup HVAC_KLASS_BY_VC_PAIR (v, c) = some slug →
      class_dev_hvac codes addr msg eav =
        Except.ok (HVAC_CLASS_BY_SLUG slug)) ∧
    (∀ v c, msg = some (v, c) → eav = true →
      dictLookup HVAC_KLASS_BY_VC_PAIR (v, c) = none → c ∈ codes →
      class_dev_hvac codes addr msg eav = Except.ok HvacClass.DeviceHvac) ∧
    (∀ v c, msg = some (v, c) → eav = true →
      dictLookup HVAC_KLASS_BY_VC_PAIR (v, c) = none → c ∉ codes →
      class_dev_hvac codes addr msg eav = Except.error Err.typeError) := by
  refine ⟨?_, ?_, ?_, ?_, ?_⟩
  · intro h
    unfold class_dev_hvac
    rw [if_pos h]
  · intro h
    unfold class_dev_hvac
    rw [h]
    by_cases he : eav = false
    · rw [if_pos he]
    · rw [if_neg he]
  · intro v c slug hm he hlk
    unfold class_dev_hvac
    rw [hm, if_neg (by rw [he]; simp)]
    show (match dictLookup HVAC_KLASS_BY_VC_PAIR (v, c) with
      | some slug => Except.ok (HVAC_CLASS_BY_SLUG slug)
      | none => if c ∈ codes then Except.ok HvacClass.DeviceHvac
          else Except.error Err.typeError) =
      Except.ok (HVAC_CLASS_BY_SLUG slug)
    rw [hlk]
  · intro v c hm he hlk hc
    unfold class_dev_hvac
    rw [hm, if_neg (by rw [he]; simp)]
    show (match dictLookup HVAC_KLASS_BY_VC_PAIR (v, c) with
      | some slug => Except.ok (HVAC_CLASS_BY_SLUG slug)
      | none => if c ∈ codes then Except.ok HvacClass.DeviceHvac
          else Except.error Err.typeError) =
      Except.ok HvacClass.DeviceHvac
    rw [hlk]
    show (if c ∈ codes then Except.ok HvacClass.DeviceHvac
      else Except.error Err.typeError) = Except.ok HvacClass.DeviceHvac
    rw [if_pos hc]
  · intro v c hm he hlk hc
    unfold class_dev_hvac
    rw [hm, if_neg (by rw [he]; simp)]
    show (match dictLookup HVAC_KLASS_BY_VC_PAIR (v, c) with
      | some slug => Except.ok (HVAC_CLASS_BY_SLUG slug)
      | none => if c ∈ codes then Except.ok HvacClass.DeviceHvac
          else Except.error Err.typeError) =
      Except.error Err.typeError
    rw [hlk]
    show (if c ∈ codes then Except.ok HvacClass.DeviceHvac
      else Except.error Err.typeError) = Except.error Err.typeError
    rw [if_neg hc]

/-- Witness for C10: with eavesdropping on, an I/12A0 maps to the
humidity class, an unlisted code in the HVAC-only set maps to the base
class, and an unlisted code outside it raises `TypeError`. -/
theorem class_dev_hvac_cases_witness :
    class_dev_hvac ["1298"] "32:987654" (some (Verb.I, "12A0")) true =
      Except.ok HvacClass.HvacHumidity ∧
    class_dev_hvac ["31E0"] "32:987654" (some (Verb.I, "31E0")) true =
      Except.ok HvacClass.DeviceHvac ∧
    class_dev_hvac ["31E0"] "32:987654" (some (Verb.RQ, "30C9")) true =
      Except.error Err.typeError ∧
    class_dev_hvac ["31E0"] "32:987654" (some (Verb.I, "12A0")) false =
      Except.error Err.typeError :=
  ⟨(class_dev_hvac_cases ["1298"] "32:987654" (some (Verb.I, "12A0"))
      true).2.2.1 Verb.I "12A0" HvacSlug.HUM rfl rfl (by decide),
   (class_dev_hvac_cases ["31E0"] "32:987654" (some (Verb.I, "31E0"))
      true).2.2.2.1 Verb.I "31E0" rfl rfl (by decide) (by decide),
   (class_dev_hvac_cases ["31E0"] "32:987654" (some (Verb.RQ, "30C9"))
      true).2.2.2.2 Verb.RQ "30C9" rfl rfl (by decide) (by decide),
   (class_dev_hvac_cases ["31E0"] "32:987654" (some (Verb.I, "12A0"))
      false).1 rfl⟩

end RamsesRF
